import Mathlib

/-!
Verification of the OnkoDICOM `ImageLoader.load` pipeline
(src/src/View/ImageLoader.py) via a shallow embedding.

The `load` method is straight-line code with early returns.  We embed it as a
total Lean function over:
  * an `Env` recording the outcomes of the external collaborators that `load`
    calls (the dataset reader, the ROI/contour/LUT extractors, the DVH engine,
    the DVH-calculation advisory),
  * the list of selected file paths,
  * the interrupt flag, modelled as the Bool each successive poll point reads,
  * the prior contents of the shared patient store.
The result records the terminal outcome (success `true`, the cancelled
sentinel `false`, a raised error, or a hang in the advisory busy-wait), the
ordered trace of observable events (progress emissions, polls, store
mutations, file writes), and the final patient store.
-/

/-- File paths as character lists, so the `os.path` prefix arithmetic is
explicit. -/
abbrev Str := List Char

/-- A raw DVH: per-ROI (keyed by ROI number) list of cumulative volumes per
dose bin. -/
abbrev Dvh := List (Nat × List ℚ)

/-- Longest common prefix of two character lists, as `os.path.commonprefix`
compares strings character-wise. -/
def commonpfx2 : Str → Str → Str
  | x :: xs, y :: ys => if x = y then x :: commonpfx2 xs ys else []
  | _, _ => []

/-- `os.path.commonprefix`: the longest common prefix of a list of paths;
the empty list yields the empty path. -/
def commonpfx : List Str → Str
  | [] => []
  | x :: xs => xs.foldl commonpfx2 x

/-- Index just past the last `/` in a path, 0 when there is none
(`p.rfind(sep) + 1` in posixpath). -/
def lastSlashIdx (p : Str) : Nat :=
  (List.range p.length).foldl (fun acc i => if p.get? i = some '/' then i + 1 else acc) 0

/-- `os.path.dirname` (posix): everything up to the last `/`, with trailing
slashes stripped unless the head is all slashes. -/
def dirname (p : Str) : Str :=
  let head := p.take (lastSlashIdx p)
  if head ≠ [] ∧ ¬ (head.all (· = '/')) then
    (head.reverse.dropWhile (· = '/')).reverse
  else head

/-- `pathlib.Path(p).joinpath(c)`: concatenation with a single separating
slash (no separator added when `p` is empty or already slash-terminated). -/
def joinpath (p : Str) (c : Str) : Str :=
  if p = [] then c
  else if p.getLast? = some '/' then p ++ c
  else p ++ '/' :: c

/-- Keys of the `read_data_dict` built by the dataset reader: CT slices are
keyed by integer index, the other files by modality name. -/
inductive DKey
  | num (n : Nat)
  | mod (s : String)
  deriving Repr, DecidableEq

/-- Modelled from the spec: `ImageLoading.get_datasets` (src/Model/ImageLoading.py
is not under src/) resolves the selected paths into a dataset map keyed by
slice identity / modality and a modality→path file-name map.  Dataset objects
are opaque tokens. -/
structure ReadOut where
  datasets : List (DKey × Nat)
  fnames : List (String × Str)
  deriving Repr, DecidableEq

/-- Values published into the shared patient store.  Artifacts produced by
external extractor functions are opaque tokens supplied by the environment. -/
inductive StoreVal
  | rois (t : Nat)
  | rawContour (t : Nat)
  | numPoints (t : Nat)
  | pixluts (t : Nat)
  | rawDvh (d : Dvh)
  | dvhXY (d : Dvh)
  | dvhOutdated (b : Bool)
  | fileRtss (p : Str)
  | datasetRtss (t : Nat)
  | dicomTreeRtss (t : Nat)
  | selectedRois
  deriving Repr, DecidableEq

/-- Modelled from the spec: the shared `PatientDictContainer` singleton
(src/Model/PatientDictContainer.py is not under src/), a key-value patient
data store with `clear`, `set_initial_values` and `set` operations, plus its
`dataset` and `filepaths` maps. -/
structure Store where
  initPath : Option Str
  datasets : List (DKey × Nat)
  filepaths : List (String × Str)
  attrs : List (String × StoreVal)
  deriving Repr, DecidableEq

/-- `PatientDictContainer.clear()`. -/
def Store.clear : Store := ⟨none, [], [], []⟩

/-- `PatientDictContainer.set_initial_values(path, read_data_dict,
file_names_dict, ...)`. -/
def Store.setInitial (path : Str) (r : ReadOut) : Store :=
  ⟨some path, r.datasets, r.fnames, []⟩

/-- `PatientDictContainer.set(key, value)`. -/
def Store.set (s : Store) (k : String) (v : StoreVal) : Store :=
  { s with attrs := s.attrs ++ [(k, v)] }

/-- Observable events of one `load` run, in program order. -/
inductive Event
  | progress (label : String) (pct : Nat)
  | requestAdvice
  | poll (k : Nat) (v : Bool)
  | print (s : String)
  | storeClear
  | storeInit
  | storeSet (k : String)
  | readRtss
  | readDose
  | writeFile (p : Str)
  deriving Repr, DecidableEq

/-- Errors `load` can propagate: `ImageLoading.NotAllowedClassError` from the
dataset reader (the spec's `UnsupportedModalityError`) and the dose-scaling
failure of the DVH engine (the spec's `MalformedDoseDatasetError`). -/
inductive LoadError
  | notAllowedClass
  | malformedDose
  deriving Repr, DecidableEq

/-- Terminal outcome of `load`: `ok true` success, `ok false` the cancelled
sentinel, `err` a raised error, `hang` the advisory busy-wait never released. -/
inductive Outcome
  | ok (b : Bool)
  | err (e : LoadError)
  | hang
  deriving Repr, DecidableEq

structure LoadResult where
  outcome : Outcome
  trace : List Event
  store : Store
  deriving Repr, DecidableEq

/-- Outcomes of the external calls `load` makes, one token per call site.
`readResult` is the dataset reader's outcome; `adviceArrives`/`advice` model
the DVH-calculation advisory collaborator (no answer ever ⇒ the busy-wait
spins forever); `dvhResult` is the DVH engine's outcome (an error models a
dose dataset lacking required scaling metadata); the remaining tokens stand
for the opaque artifacts returned by the extractor functions. -/
structure Env where
  readResult : Except Unit ReadOut
  adviceArrives : Bool
  advice : Bool
  isLinux : Bool
  roisTok : Nat
  contourTok : Nat
  numptsTok : Nat
  thickTok : Nat
  pixlutsTok : Nat
  dvhResult : Except Unit Dvh
  synthTok : Nat
  roisSynthTok : Nat
  pixlutsSynthTok : Nat
  dicomTreeTok : Nat
  deriving Repr

/-- Modelled from the spec: `ImageLoading.converge_to_0_dvh` per-curve
normalisation — extend the curve with a zero-volume bin when the last bin is
nonzero, or truncate trailing bins beyond the first zero-crossing. -/
def convergeCurve : List ℚ → List ℚ
  | [] => [0]
  | x :: xs => if x = 0 then [0] else x :: convergeCurve xs

/-- Modelled from the spec: `ImageLoading.converge_to_0_dvh`
(src/Model/ImageLoading.py is not under src/), applied per ROI. -/
def converge_to_0_dvh (d : Dvh) : Dvh :=
  d.map (fun p => (p.1, convergeCurve p.2))

/-- The `if 'rtss' in file_names_dict` branch of `ImageLoader.load`
(src/src/View/ImageLoader.py lines 65-130), entered with the store already
initialised, the trace so far, and `self.calc_dvh`. -/
def loadRtss (env : Env) (r : ReadOut) (flag : Nat → Bool) (ev : List Event)
    (s : Store) (calcDvh : Bool) : LoadResult :=
  -- dataset_rtss = dcmread(...); progress 10; rois = get_roi_info(...)
  let ev := ev ++ [Event.readRtss, Event.progress "Getting ROI info..." 10]
  if flag 1 then ⟨Outcome.ok false, ev ++ [Event.poll 1 true, Event.print "stopped"], s⟩ else
  -- progress 30; raw contour data, numpoints, thickness dict
  let ev := ev ++ [Event.poll 1 false, Event.progress "Getting contour data..." 30]
  if flag 2 then ⟨Outcome.ok false, ev ++ [Event.poll 2 true, Event.print "stopped"], s⟩ else
  -- progress 50; pixluts
  let ev := ev ++ [Event.poll 2 false, Event.progress "Getting pixel LUTs..." 50]
  if flag 3 then ⟨Outcome.ok false, ev ++ [Event.poll 3 true, Event.print "stopped"], s⟩ else
  let ev := ev ++ [Event.poll 3 false]
  -- Add RTSS values to PatientDictContainer
  let s := (((s.set "rois" (StoreVal.rois env.roisTok)).set
      "raw_contour" (StoreVal.rawContour env.contourTok)).set
      "num_points" (StoreVal.numPoints env.numptsTok)).set
      "pixluts" (StoreVal.pixluts env.pixlutsTok)
  let ev := ev ++ [Event.storeSet "rois", Event.storeSet "raw_contour",
      Event.storeSet "num_points", Event.storeSet "pixluts"]
  if ((r.fnames.lookup "rtdose").isSome && calcDvh) then
    -- dataset_rtdose = dcmread(...); progress 60; DVH engine
    let ev := ev ++ [Event.readDose,
      Event.progress
        (if env.isLinux then "Calculating DVHs..."
         else "Calculating DVHs... (This may take a while)") 60]
    match env.dvhResult with
    | Except.error _ => ⟨Outcome.err LoadError.malformedDose, ev, s⟩
    | Except.ok rawDvh =>
      if flag 4 then ⟨Outcome.ok false, ev ++ [Event.poll 4 true, Event.print "stopped"], s⟩ else
      let ev := ev ++ [Event.poll 4 false, Event.progress "Converging to zero..." 80]
      if flag 5 then ⟨Outcome.ok false, ev ++ [Event.poll 5 true, Event.print "stopped"], s⟩ else
      let ev := ev ++ [Event.poll 5 false]
      -- Add DVH values to PatientDictContainer
      let s := ((s.set "raw_dvh" (StoreVal.rawDvh rawDvh)).set
          "dvh_x_y" (StoreVal.dvhXY (converge_to_0_dvh rawDvh))).set
          "dvh_outdated" (StoreVal.dvhOutdated false)
      ⟨Outcome.ok true, ev ++ [Event.storeSet "raw_dvh", Event.storeSet "dvh_x_y",
          Event.storeSet "dvh_outdated"], s⟩
  else ⟨Outcome.ok true, ev, s⟩

/-- The `else` (no RTSS) branch of `ImageLoader.load`
(src/src/View/ImageLoader.py lines 131-155).  Modelled from the spec:
`create_initial_rtss_from_ct` (src/Model/ROI.py is not under src/) synthesizes
an empty structure set from the first CT dataset and writes it to the given
path. -/
def loadNoRtss (env : Env) (path : Str) (ev : List Event) (s : Store) : LoadResult :=
  let ev := ev ++ [Event.progress "Generating temporary rtss..." 10]
  let rtssPath := joinpath path ['r', 't', 's', 's', '.', 'd', 'c', 'm']
  let ev := ev ++ [Event.writeFile rtssPath]
  let s := s.set "rois" (StoreVal.rois env.roisSynthTok)
  let s := s.set "pixluts" (StoreVal.pixluts env.pixlutsSynthTok)
  let s := { s with filepaths := s.filepaths ++ [("rtss", rtssPath)],
                    datasets := s.datasets ++ [(DKey.mod "rtss", env.synthTok)] }
  let s := s.set "file_rtss" (StoreVal.fileRtss rtssPath)
  let s := s.set "dataset_rtss" (StoreVal.datasetRtss env.synthTok)
  let s := s.set "dict_dicom_tree_rtss" (StoreVal.dicomTreeRtss env.dicomTreeTok)
  let s := s.set "selected_rois" StoreVal.selectedRois
  ⟨Outcome.ok true, ev ++ [Event.storeSet "rois", Event.storeSet "pixluts",
      Event.storeSet "file_rtss", Event.storeSet "dataset_rtss",
      Event.storeSet "dict_dicom_tree_rtss", Event.storeSet "selected_rois"], s⟩

/-- `ImageLoader.load` (src/src/View/ImageLoader.py lines 29-155). -/
def load (env : Env) (files : List Str) (flag : Nat → Bool) (s0 : Store) : LoadResult :=
  let ev : List Event := [Event.progress "Creating datasets..." 0]
  let path := dirname (commonpfx files)
  match env.readResult with
  | Except.error _ => ⟨Outcome.err LoadError.notAllowedClass, ev, s0⟩
  | Except.ok r =>
    let s := Store.setInitial path r
    let ev := ev ++ [Event.storeClear, Event.storeInit]
    if flag 0 then ⟨Outcome.ok false, ev ++ [Event.poll 0 true, Event.print "stopped"], s⟩ else
    let ev := ev ++ [Event.poll 0 false]
    if ((r.fnames.lookup "rtss").isSome && (r.fnames.lookup "rtdose").isSome) then
      let ev := ev ++ [Event.requestAdvice]
      if env.adviceArrives then loadRtss env r flag ev s env.advice
      else ⟨Outcome.hang, ev, s⟩
    else if (r.fnames.lookup "rtss").isSome then
      loadRtss env r flag ev s false
    else loadNoRtss env path ev s

/-! ## Properties of the DVH normaliser -/

theorem convergeCurve_ends_zero (v : List ℚ) : ∃ l, convergeCurve v = l ++ [0] := by
  induction v with
  | nil => exact ⟨[], rfl⟩
  | cons x xs ih =>
    by_cases hx : x = 0
    · exact ⟨[], by simp [convergeCurve, hx]⟩
    · obtain ⟨l, hl⟩ := ih
      exact ⟨x :: l, by simp [convergeCurve, hx, hl]⟩

theorem convergeCurve_getLast (v : List ℚ) : (convergeCurve v).getLast? = some 0 := by
  obtain ⟨l, hl⟩ := convergeCurve_ends_zero v
  rw [hl, List.getLast?_append_cons]
  rfl

theorem convergeCurve_head (v : List ℚ) :
    (convergeCurve v).head? = some 0 ∨ (convergeCurve v).head? = v.head? := by
  cases v with
  | nil => left; rfl
  | cons x xs =>
    by_cases hx : x = 0
    · left; simp [convergeCurve, hx]
    · right; simp [convergeCurve, hx]

theorem convergeCurve_chain (v : List ℚ) (h1 : List.Chain' (· ≥ ·) v)
    (h2 : ∀ x ∈ v, 0 ≤ x) : List.Chain' (· ≥ ·) (convergeCurve v) := by
  induction v with
  | nil => simp [convergeCurve]
  | cons x xs ih =>
    by_cases hx : x = 0
    · simp [convergeCurve, hx]
    · rw [List.chain'_cons'] at h1
      simp only [convergeCurve, if_neg hx]
      rw [List.chain'_cons']
      refine ⟨?_, ih h1.2 (fun y hy => h2 y (List.mem_cons_of_mem x hy))⟩
      intro y hy
      rcases convergeCurve_head xs with hh | hh
      · rw [hh] at hy
        simp only [Option.mem_def, Option.some.injEq] at hy
        subst hy
        exact h2 x (List.mem_cons_self x xs)
      · rw [hh] at hy
        exact h1.1 y hy

theorem convergeCurve_idem (v : List ℚ) :
    convergeCurve (convergeCurve v) = convergeCurve v := by
  induction v with
  | nil => simp [convergeCurve]
  | cons x xs ih =>
    by_cases hx : x = 0
    · simp [convergeCurve, hx]
    · simp [convergeCurve, hx, ih]

/-- C8: for every raw DVH whose per-ROI curves are monotonic non-increasing
with non-negative volumes, `converge_to_0_dvh` returns curves that are
monotonic non-increasing and end in a zero-volume bin, and the normaliser is
idempotent. -/
theorem c8_normalizer_monotone_zero_idem (d : Dvh)
    (h : ∀ p ∈ d, List.Chain' (· ≥ ·) p.2 ∧ ∀ x ∈ p.2, 0 ≤ x) :
    (∀ p ∈ converge_to_0_dvh d,
        List.Chain' (· ≥ ·) p.2 ∧ p.2.getLast? = some 0) ∧
    converge_to_0_dvh (converge_to_0_dvh d) = converge_to_0_dvh d := by
  constructor
  · intro p hp
    rw [converge_to_0_dvh, List.mem_map] at hp
    obtain ⟨q, hq, rfl⟩ := hp
    obtain ⟨hc, hn⟩ := h q hq
    exact ⟨convergeCurve_chain q.2 hc hn, convergeCurve_getLast q.2⟩
  · rw [converge_to_0_dvh, converge_to_0_dvh, List.map_map]
    exact List.map_congr_left (fun q _ => by simp [convergeCurve_idem])

def dvhW : Dvh := [(1, [3, 2]), (2, [5, 4, 0, 0])]

/-- Witness for C8 at a concrete raw DVH. -/
theorem c8_witness :
    (∀ p ∈ dvhW, List.Chain' (· ≥ ·) p.2 ∧ ∀ x ∈ p.2, 0 ≤ x) ∧
    ((∀ p ∈ converge_to_0_dvh dvhW,
        List.Chain' (· ≥ ·) p.2 ∧ p.2.getLast? = some 0) ∧
      converge_to_0_dvh (converge_to_0_dvh dvhW) = converge_to_0_dvh dvhW) :=
  ⟨by norm_num [dvhW, List.chain'_cons, List.chain'_singleton],
   c8_normalizer_monotone_zero_idem dvhW
     (by norm_num [dvhW, List.chain'_cons, List.chain'_singleton])⟩

/-! ## Helper lemmas about association lists and trace extension -/

theorem lookup_append_of_left_none {α β : Type} [BEq α] (l1 l2 : List (α × β)) (k : α)
    (h : l1.lookup k = none) : (l1 ++ l2).lookup k = l2.lookup k := by
  induction l1 with
  | nil => rfl
  | cons p t ih =>
    cases p with
    | mk a b =>
      by_cases hk : (k == a) = true
      · simp [List.lookup, hk] at h
      · simp only [List.lookup, hk] at h
        simp only [List.cons_append, List.lookup, hk]
        exact ih h

theorem lookup_append_of_right_none {α β : Type} [BEq α] (l1 l2 : List (α × β)) (k : α)
    (h : l2.lookup k = none) : (l1 ++ l2).lookup k = l1.lookup k := by
  induction l1 with
  | nil => simpa using h
  | cons p t ih =>
    cases p with
    | mk a b =>
      by_cases hk : (k == a) = true
      · simp only [List.cons_append, List.lookup, hk]
      · simp only [List.cons_append, List.lookup, hk]
        exact ih

theorem loadRtss_trace_ext (env : Env) (r : ReadOut) (flag : Nat → Bool)
    (ev : List Event) (s : Store) (c : Bool) :
    ∃ t, (loadRtss env r flag ev s c).trace = ev ++ t := by
  rcases hd : env.dvhResult with _ | rd <;>
    simp only [loadRtss, hd] <;> split_ifs <;>
    exact ⟨_, by simp only [List.append_assoc]; rfl⟩

theorem loadNoRtss_trace_ext (env : Env) (path : Str) (ev : List Event) (s : Store) :
    ∃ t, (loadNoRtss env path ev s).trace = ev ++ t := by
  simp only [loadNoRtss]
  exact ⟨_, by simp only [List.append_assoc]; rfl⟩

/-! ## Concrete fixtures used by the witnesses -/

def flagOff : Nat → Bool := fun _ => false

def rBothW : ReadOut :=
  ⟨[(DKey.num 0, 41), (DKey.mod "rtss", 42), (DKey.mod "rtdose", 43)],
   [("rtss", ['r']), ("rtdose", ['d'])]⟩

def rRtssW : ReadOut := ⟨[(DKey.num 0, 41), (DKey.mod "rtss", 42)], [("rtss", ['r'])]⟩

def rCtW : ReadOut := ⟨[(DKey.num 0, 41)], []⟩

def mkEnv (rr : Except Unit ReadOut) (arrives advice : Bool)
    (dvh : Except Unit Dvh) : Env :=
  ⟨rr, arrives, advice, true, 1, 2, 3, 4, 5, dvh, 6, 7, 8, 9⟩

def filesW : List Str := [['/', 'a', '/', 'x'], ['/', 'a', '/', 'y']]

def s0W : Store :=
  ⟨some ['o'], [(DKey.num 0, 99)], [("rtdose", ['q'])], [("rois", StoreVal.rois 99)]⟩

/-! ## C2: unsupported DICOM class aborts before any store mutation -/

/-- C2: when the dataset reader rejects a file with the unsupported-modality
error, `load` re-raises it having emitted only the initial progress event:
the patient store is neither cleared nor written and holds exactly its prior
contents. -/
theorem c2_unsupported_class_no_mutation (env : Env) (files : List Str)
    (flag : Nat → Bool) (s0 : Store) (hr : env.readResult = Except.error ()) :
    (load env files flag s0).outcome = Outcome.err LoadError.notAllowedClass ∧
    (load env files flag s0).store = s0 ∧
    (load env files flag s0).trace = [Event.progress "Creating datasets..." 0] := by
  simp [load, hr]

/-- Witness for C2: a failed read over a non-empty prior store. -/
theorem c2_witness :
    (mkEnv (Except.error ()) true true (Except.ok [])).readResult = Except.error () ∧
    ((load (mkEnv (Except.error ()) true true (Except.ok [])) filesW flagOff s0W).outcome =
        Outcome.err LoadError.notAllowedClass ∧
      (load (mkEnv (Except.error ()) true true (Except.ok [])) filesW flagOff s0W).store = s0W ∧
      (load (mkEnv (Except.error ()) true true (Except.ok [])) filesW flagOff s0W).trace =
        [Event.progress "Creating datasets..." 0]) :=
  ⟨rfl, c2_unsupported_class_no_mutation (mkEnv (Except.error ()) true true (Except.ok []))
    filesW flagOff s0W rfl⟩

/-! ## C5: CT + RTSS only -/

/-- C5: an uncancelled load of a dataset with an RTSS but no RTDOSE returns
`True` and the store holds `rois`, `raw_contour`, `num_points` and `pixluts`
but none of `raw_dvh`, `dvh_x_y`, `dvh_outdated`. -/
theorem c5_ct_rtss_only_success (env : Env) (files : List Str) (flag : Nat → Bool)
    (s0 : Store) (r : ReadOut)
    (hr : env.readResult = Except.ok r)
    (hrtss : (r.fnames.lookup "rtss").isSome = true)
    (hdose : r.fnames.lookup "rtdose" = none)
    (h0 : flag 0 = false) (h1 : flag 1 = false) (h2 : flag 2 = false)
    (h3 : flag 3 = false) :
    (load env files flag s0).outcome = Outcome.ok true ∧
    (load env files flag s0).store.attrs.lookup "rois" = some (StoreVal.rois env.roisTok) ∧
    (load env files flag s0).store.attrs.lookup "raw_contour" =
      some (StoreVal.rawContour env.contourTok) ∧
    (load env files flag s0).store.attrs.lookup "num_points" =
      some (StoreVal.numPoints env.numptsTok) ∧
    (load env files flag s0).store.attrs.lookup "pixluts" =
      some (StoreVal.pixluts env.pixlutsTok) ∧
    (load env files flag s0).store.attrs.lookup "raw_dvh" = none ∧
    (load env files flag s0).store.attrs.lookup "dvh_x_y" = none ∧
    (load env files flag s0).store.attrs.lookup "dvh_outdated" = none := by
  simp [load, loadRtss, hr, hrtss, hdose, h0, h1, h2, h3, Store.set, Store.setInitial,
    List.lookup]

/-- Witness for C5: CT + RTSS, no RTDOSE, never cancelled. -/
theorem c5_witness :
    (mkEnv (Except.ok rRtssW) false false (Except.ok [])).readResult = Except.ok rRtssW ∧
    (rRtssW.fnames.lookup "rtss").isSome = true ∧
    rRtssW.fnames.lookup "rtdose" = none ∧
    flagOff 0 = false ∧ flagOff 1 = false ∧ flagOff 2 = false ∧ flagOff 3 = false ∧
    ((load (mkEnv (Except.ok rRtssW) false false (Except.ok [])) filesW flagOff s0W).outcome =
        Outcome.ok true ∧
      (load (mkEnv (Except.ok rRtssW) false false (Except.ok [])) filesW flagOff
            s0W).store.attrs.lookup "rois" =
        some (StoreVal.rois (mkEnv (Except.ok rRtssW) false false (Except.ok [])).roisTok) ∧
      (load (mkEnv (Except.ok rRtssW) false false (Except.ok [])) filesW flagOff
            s0W).store.attrs.lookup "raw_contour" =
        some (StoreVal.rawContour
          (mkEnv (Except.ok rRtssW) false false (Except.ok [])).contourTok) ∧
      (load (mkEnv (Except.ok rRtssW) false false (Except.ok [])) filesW flagOff
            s0W).store.attrs.lookup "num_points" =
        some (StoreVal.numPoints
          (mkEnv (Except.ok rRtssW) false false (Except.ok [])).numptsTok) ∧
      (load (mkEnv (Except.ok rRtssW) false false (Except.ok [])) filesW flagOff
            s0W).store.attrs.lookup "pixluts" =
        some (StoreVal.pixluts
          (mkEnv (Except.ok rRtssW) false false (Except.ok [])).pixlutsTok) ∧
      (load (mkEnv (Except.ok rRtssW) false false (Except.ok [])) filesW flagOff
            s0W).store.attrs.lookup "raw_dvh" = none ∧
      (load (mkEnv (Except.ok rRtssW) false false (Except.ok [])) filesW flagOff
            s0W).store.attrs.lookup "dvh_x_y" = none ∧
      (load (mkEnv (Except.ok rRtssW) false false (Except.ok [])) filesW flagOff
            s0W).store.attrs.lookup "dvh_outdated" = none) :=
  ⟨rfl, by decide, by decide, rfl, rfl, rfl, rfl,
   c5_ct_rtss_only_success (mkEnv (Except.ok rRtssW) false false (Except.ok []))
     filesW flagOff s0W rRtssW rfl (by decide) (by decide) rfl rfl rfl rfl⟩

/-! ## C6: no RTSS present — synthesis of an empty structure set -/

/-- C6: when no RTSS is among the selected files (and the single poll reads
unset), `load` writes a synthesized structure-set file named `rtss.dcm` in
the common directory of the selected files, registers the path under the
`rtss` key of the file-path map and the synthesized dataset under the `rtss`
key of the dataset map, and returns `True`. -/
theorem c6_no_rtss_synthesis (env : Env) (files : List Str) (flag : Nat → Bool)
    (s0 : Store) (r : ReadOut)
    (hr : env.readResult = Except.ok r)
    (hnortss : r.fnames.lookup "rtss" = none)
    (hds : r.datasets.lookup (DKey.mod "rtss") = none)
    (h0 : flag 0 = false) :
    (load env files flag s0).outcome = Outcome.ok true ∧
    Event.writeFile (joinpath (dirname (commonpfx files))
        ['r', 't', 's', 's', '.', 'd', 'c', 'm']) ∈ (load env files flag s0).trace ∧
    (load env files flag s0).store.filepaths.lookup "rtss" =
      some (joinpath (dirname (commonpfx files)) ['r', 't', 's', 's', '.', 'd', 'c', 'm']) ∧
    (load env files flag s0).store.datasets.lookup (DKey.mod "rtss") =
      some env.synthTok ∧
    (load env files flag s0).store.attrs.lookup "dataset_rtss" =
      some (StoreVal.datasetRtss env.synthTok) := by
  have hload : load env files flag s0 =
      loadNoRtss env (dirname (commonpfx files))
        [Event.progress "Creating datasets..." 0, Event.storeClear, Event.storeInit,
         Event.poll 0 false]
        (Store.setInitial (dirname (commonpfx files)) r) := by
    simp [load, hr, hnortss, h0]
  rw [hload]
  simp only [loadNoRtss, Store.set, Store.setInitial]
  refine ⟨by trivial, by simp, ?_, ?_, ?_⟩
  · rw [lookup_append_of_left_none _ _ _ hnortss]
    rfl
  · rw [lookup_append_of_left_none _ _ _ hds]
    rfl
  · rfl

/-- Witness for C6: CT-only selection rooted at `/a`. -/
theorem c6_witness :
    (mkEnv (Except.ok rCtW) false false (Except.ok [])).readResult = Except.ok rCtW ∧
    rCtW.fnames.lookup "rtss" = none ∧
    rCtW.datasets.lookup (DKey.mod "rtss") = none ∧
    flagOff 0 = false ∧
    ((load (mkEnv (Except.ok rCtW) false false (Except.ok [])) filesW flagOff s0W).outcome =
        Outcome.ok true ∧
      Event.writeFile (joinpath (dirname (commonpfx filesW))
          ['r', 't', 's', 's', '.', 'd', 'c', 'm']) ∈
        (load (mkEnv (Except.ok rCtW) false false (Except.ok [])) filesW flagOff s0W).trace ∧
      (load (mkEnv (Except.ok rCtW) false false (Except.ok [])) filesW flagOff
          s0W).store.filepaths.lookup "rtss" =
        some (joinpath (dirname (commonpfx filesW)) ['r', 't', 's', 's', '.', 'd', 'c', 'm']) ∧
      (load (mkEnv (Except.ok rCtW) false false (Except.ok [])) filesW flagOff
          s0W).store.datasets.lookup (DKey.mod "rtss") =
        some (mkEnv (Except.ok rCtW) false false (Except.ok [])).synthTok ∧
      (load (mkEnv (Except.ok rCtW) false false (Except.ok [])) filesW flagOff
          s0W).store.attrs.lookup "dataset_rtss" =
        some (StoreVal.datasetRtss (mkEnv (Except.ok rCtW) false false (Except.ok [])).synthTok)) :=
  ⟨rfl, rfl, rfl, rfl,
   c6_no_rtss_synthesis (mkEnv (Except.ok rCtW) false false (Except.ok []))
     filesW flagOff s0W rCtW rfl rfl rfl rfl⟩

/-! ## C10: the no-RTSS branch polls the flag exactly once -/

/-- C10: in a load without an RTSS whose single poll (right after dataset
creation) reads unset, no further poll ever happens: the synthesis branch
runs to completion and `load` returns `True` regardless of the flag's later
values. -/
theorem c10_no_rtss_single_poll (env : Env) (files : List Str) (flag : Nat → Bool)
    (s0 : Store) (r : ReadOut)
    (hr : env.readResult = Except.ok r)
    (hnortss : r.fnames.lookup "rtss" = none)
    (h0 : flag 0 = false) :
    (load env files flag s0).outcome = Outcome.ok true ∧
    (∃ post, (load env files flag s0).trace =
        [Event.progress "Creating datasets..." 0, Event.storeClear, Event.storeInit,
         Event.poll 0 false] ++ post ∧
        ∀ e ∈ post, ∀ j b, e ≠ Event.poll j b) ∧
    Event.storeSet "selected_rois" ∈ (load env files flag s0).trace := by
  have hload : load env files flag s0 =
      loadNoRtss env (dirname (commonpfx files))
        [Event.progress "Creating datasets..." 0, Event.storeClear, Event.storeInit,
         Event.poll 0 false]
        (Store.setInitial (dirname (commonpfx files)) r) := by
    simp [load, hr, hnortss, h0]
  rw [hload]
  simp only [loadNoRtss]
  refine ⟨by trivial, ⟨_, by simp only [List.append_assoc]; rfl, ?_⟩, by simp⟩
  intro e he j b
  simp only [List.cons_append, List.nil_append, List.mem_cons, List.not_mem_nil,
    or_false] at he
  rcases he with rfl | rfl | rfl | rfl | rfl | rfl | rfl | rfl <;> simp

/-- Witness for C10: the flag becomes set right after the single poll, yet
the load still completes with `True`. -/
theorem c10_witness :
    (mkEnv (Except.ok rCtW) false false (Except.ok [])).readResult = Except.ok rCtW ∧
    rCtW.fnames.lookup "rtss" = none ∧
    (fun k => decide (1 ≤ k)) 0 = false ∧
    ((load (mkEnv (Except.ok rCtW) false false (Except.ok [])) filesW
          (fun k => decide (1 ≤ k)) s0W).outcome = Outcome.ok true ∧
      (∃ post, (load (mkEnv (Except.ok rCtW) false false (Except.ok [])) filesW
            (fun k => decide (1 ≤ k)) s0W).trace =
          [Event.progress "Creating datasets..." 0, Event.storeClear, Event.storeInit,
           Event.poll 0 false] ++ post ∧
          ∀ e ∈ post, ∀ j b, e ≠ Event.poll j b) ∧
      Event.storeSet "selected_rois" ∈
        (load (mkEnv (Except.ok rCtW) false false (Except.ok [])) filesW
          (fun k => decide (1 ≤ k)) s0W).trace) :=
  ⟨rfl, rfl, rfl,
   c10_no_rtss_single_poll (mkEnv (Except.ok rCtW) false false (Except.ok []))
     filesW (fun k => decide (1 ≤ k)) s0W rCtW rfl rfl rfl⟩

/-! ## C7: the progress percent sequence of a full DVH-computing load -/

/-- The percent components of the progress notifications in a trace. -/
def progressPcts (t : List Event) : List Nat :=
  t.filterMap (fun e =>
    match e with
    | Event.progress _ p => some p
    | _ => none)

/-- C7: a full uncancelled load with RTSS and RTDOSE present, DVH advised and
computed, emits progress percentages exactly 0, 10, 30, 50, 60, 80 in order. -/
theorem c7_progress_sequence (env : Env) (files : List Str) (flag : Nat → Bool)
    (s0 : Store) (r : ReadOut) (d : Dvh)
    (hr : env.readResult = Except.ok r)
    (hrtss : (r.fnames.lookup "rtss").isSome = true)
    (hdose : (r.fnames.lookup "rtdose").isSome = true)
    (harr : env.adviceArrives = true) (hadv : env.advice = true)
    (hdvh : env.dvhResult = Except.ok d)
    (h0 : flag 0 = false) (h1 : flag 1 = false) (h2 : flag 2 = false)
    (h3 : flag 3 = false) (h4 : flag 4 = false) (h5 : flag 5 = false) :
    progressPcts (load env files flag s0).trace = [0, 10, 30, 50, 60, 80] ∧
    (load env files flag s0).outcome = Outcome.ok true := by
  constructor <;>
    simp [load, loadRtss, progressPcts, hr, hrtss, hdose, harr, hadv, hdvh,
      h0, h1, h2, h3, h4, h5]

/-- Witness for C7: both modalities present, advice yes, empty dose result. -/
theorem c7_witness :
    (mkEnv (Except.ok rBothW) true true (Except.ok [])).readResult = Except.ok rBothW ∧
    (rBothW.fnames.lookup "rtss").isSome = true ∧
    (rBothW.fnames.lookup "rtdose").isSome = true ∧
    (mkEnv (Except.ok rBothW) true true (Except.ok [])).adviceArrives = true ∧
    (mkEnv (Except.ok rBothW) true true (Except.ok [])).advice = true ∧
    (mkEnv (Except.ok rBothW) true true (Except.ok [])).dvhResult = Except.ok [] ∧
    flagOff 0 = false ∧ flagOff 1 = false ∧ flagOff 2 = false ∧
    flagOff 3 = false ∧ flagOff 4 = false ∧ flagOff 5 = false ∧
    (progressPcts (load (mkEnv (Except.ok rBothW) true true (Except.ok [])) filesW
          flagOff s0W).trace = [0, 10, 30, 50, 60, 80] ∧
      (load (mkEnv (Except.ok rBothW) true true (Except.ok [])) filesW flagOff
          s0W).outcome = Outcome.ok true) :=
  ⟨rfl, by decide, by decide, rfl, rfl, rfl, rfl, rfl, rfl, rfl, rfl, rfl,
   c7_progress_sequence (mkEnv (Except.ok rBothW) true true (Except.ok []))
     filesW flagOff s0W rBothW [] rfl (by decide) (by decide) rfl rfl rfl
     rfl rfl rfl rfl rfl rfl⟩

/-! ## C3: a dose-scaling failure is fatal only after the ROI artifacts -/

/-- C3: in a run that reaches the DVH stage, the `rois`, `raw_contour`,
`num_points` and `pixluts` keys are written before the dose dataset is read,
and when the DVH engine fails on missing scaling metadata they remain
committed while `load` propagates the error. -/
theorem c3_dose_failure_preserves_artifacts (env : Env) (files : List Str)
    (flag : Nat → Bool) (s0 : Store) (r : ReadOut)
    (hr : env.readResult = Except.ok r)
    (hrtss : (r.fnames.lookup "rtss").isSome = true)
    (hdose : (r.fnames.lookup "rtdose").isSome = true)
    (harr : env.adviceArrives = true) (hadv : env.advice = true)
    (hdvh : env.dvhResult = Except.error ())
    (h0 : flag 0 = false) (h1 : flag 1 = false) (h2 : flag 2 = false)
    (h3 : flag 3 = false) :
    (load env files flag s0).outcome = Outcome.err LoadError.malformedDose ∧
    (∃ pre post, (load env files flag s0).trace =
        pre ++ [Event.storeSet "rois", Event.storeSet "raw_contour",
          Event.storeSet "num_points", Event.storeSet "pixluts",
          Event.readDose] ++ post) ∧
    (load env files flag s0).store.attrs.lookup "rois" =
      some (StoreVal.rois env.roisTok) ∧
    (load env files flag s0).store.attrs.lookup "raw_contour" =
      some (StoreVal.rawContour env.contourTok) ∧
    (load env files flag s0).store.attrs.lookup "num_points" =
      some (StoreVal.numPoints env.numptsTok) ∧
    (load env files flag s0).store.attrs.lookup "pixluts" =
      some (StoreVal.pixluts env.pixlutsTok) ∧
    (load env files flag s0).store.attrs.lookup "raw_dvh" = none := by
  refine ⟨?_,
    ⟨[Event.progress "Creating datasets..." 0, Event.storeClear, Event.storeInit,
      Event.poll 0 false, Event.requestAdvice, Event.readRtss,
      Event.progress "Getting ROI info..." 10, Event.poll 1 false,
      Event.progress "Getting contour data..." 30, Event.poll 2 false,
      Event.progress "Getting pixel LUTs..." 50, Event.poll 3 false],
     [Event.progress (if env.isLinux then "Calculating DVHs..."
        else "Calculating DVHs... (This may take a while)") 60], ?_⟩,
    ?_, ?_, ?_, ?_, ?_⟩ <;>
  simp [load, loadRtss, hr, hrtss, hdose, harr, hadv, hdvh, h0, h1, h2, h3,
    Store.set, Store.setInitial, List.lookup]

/-- Witness for C3: both modalities present, advice yes, dose dataset lacking
scaling metadata. -/
theorem c3_witness :
    (mkEnv (Except.ok rBothW) true true (Except.error ())).readResult = Except.ok rBothW ∧
    (rBothW.fnames.lookup "rtss").isSome = true ∧
    (rBothW.fnames.lookup "rtdose").isSome = true ∧
    (mkEnv (Except.ok rBothW) true true (Except.error ())).adviceArrives = true ∧
    (mkEnv (Except.ok rBothW) true true (Except.error ())).advice = true ∧
    (mkEnv (Except.ok rBothW) true true (Except.error ())).dvhResult = Except.error () ∧
    flagOff 0 = false ∧ flagOff 1 = false ∧ flagOff 2 = false ∧ flagOff 3 = false ∧
    ((load (mkEnv (Except.ok rBothW) true true (Except.error ())) filesW flagOff
          s0W).outcome = Outcome.err LoadError.malformedDose ∧
      (∃ pre post, (load (mkEnv (Except.ok rBothW) true true (Except.error ())) filesW
            flagOff s0W).trace =
          pre ++ [Event.storeSet "rois", Event.storeSet "raw_contour",
            Event.storeSet "num_points", Event.storeSet "pixluts",
            Event.readDose] ++ post) ∧
      (load (mkEnv (Except.ok rBothW) true true (Except.error ())) filesW flagOff
          s0W).store.attrs.lookup "rois" =
        some (StoreVal.rois (mkEnv (Except.ok rBothW) true true (Except.error ())).roisTok) ∧
      (load (mkEnv (Except.ok rBothW) true true (Except.error ())) filesW flagOff
          s0W).store.attrs.lookup "raw_contour" =
        some (StoreVal.rawContour
          (mkEnv (Except.ok rBothW) true true (Except.error ())).contourTok) ∧
      (load (mkEnv (Except.ok rBothW) true true (Except.error ())) filesW flagOff
          s0W).store.attrs.lookup "num_points" =
        some (StoreVal.numPoints
          (mkEnv (Except.ok rBothW) true true (Except.error ())).numptsTok) ∧
      (load (mkEnv (Except.ok rBothW) true true (Except.error ())) filesW flagOff
          s0W).store.attrs.lookup "pixluts" =
        some (StoreVal.pixluts
          (mkEnv (Except.ok rBothW) true true (Except.error ())).pixlutsTok) ∧
      (load (mkEnv (Except.ok rBothW) true true (Except.error ())) filesW flagOff
          s0W).store.attrs.lookup "raw_dvh" = none) :=
  ⟨rfl, by decide, by decide, rfl, rfl, rfl, rfl, rfl, rfl, rfl,
   c3_dose_failure_preserves_artifacts (mkEnv (Except.ok rBothW) true true (Except.error ()))
     filesW flagOff s0W rBothW rfl (by decide) (by decide) rfl rfl rfl rfl rfl rfl rfl⟩

/-! ## C4: the DVH-calculation advisory handshake -/

theorem loadRtss_dvh_set_mem (env : Env) (r : ReadOut) (flag : Nat → Bool)
    (ev : List Event) (s : Store) (c : Bool)
    (h : Event.storeSet "raw_dvh" ∈ (loadRtss env r flag ev s c).trace) :
    Event.storeSet "raw_dvh" ∈ ev ∨ c = true := by
  rcases hd : env.dvhResult with _ | rd <;>
    simp only [loadRtss, hd] at h <;>
    split_ifs at h <;> simp_all

/-- C4: when both RTSS and RTDOSE are selected, `load` performs the advisory
request before any ROI or DVH stage (hanging forever if no answer arrives),
DVH keys are written only when the advice is yes, and a no-advice load still
returns `True` with no DVH keys. -/
theorem c4_advisory_gate (env : Env) (files : List Str) (flag : Nat → Bool)
    (s0 : Store) (r : ReadOut)
    (hr : env.readResult = Except.ok r)
    (hrtss : (r.fnames.lookup "rtss").isSome = true)
    (hdose : (r.fnames.lookup "rtdose").isSome = true)
    (h0 : flag 0 = false) :
    (∃ post, (load env files flag s0).trace =
        [Event.progress "Creating datasets..." 0, Event.storeClear, Event.storeInit,
         Event.poll 0 false, Event.requestAdvice] ++ post) ∧
    (env.adviceArrives = false → (load env files flag s0).outcome = Outcome.hang) ∧
    (Event.storeSet "raw_dvh" ∈ (load env files flag s0).trace →
      env.adviceArrives = true ∧ env.advice = true) ∧
    (env.adviceArrives = true → env.advice = false → flag 1 = false →
      flag 2 = false → flag 3 = false →
      (load env files flag s0).outcome = Outcome.ok true ∧
      (load env files flag s0).store.attrs.lookup "raw_dvh" = none ∧
      (load env files flag s0).store.attrs.lookup "dvh_x_y" = none ∧
      (load env files flag s0).store.attrs.lookup "dvh_outdated" = none) := by
  cases harr : env.adviceArrives with
  | false =>
    refine ⟨⟨[], by simp [load, hr, hrtss, hdose, h0, harr]⟩,
      fun _ => by simp [load, hr, hrtss, hdose, h0, harr],
      fun hm => ?_, fun hT => by simp [harr] at hT⟩
    exfalso
    simp [load, hr, hrtss, hdose, h0, harr] at hm
  | true =>
    have hload : load env files flag s0 =
        loadRtss env r flag
          [Event.progress "Creating datasets..." 0, Event.storeClear, Event.storeInit,
           Event.poll 0 false, Event.requestAdvice]
          (Store.setInitial (dirname (commonpfx files)) r) env.advice := by
      simp [load, hr, hrtss, hdose, h0, harr]
    obtain ⟨t, ht⟩ := loadRtss_trace_ext env r flag
      [Event.progress "Creating datasets..." 0, Event.storeClear, Event.storeInit,
       Event.poll 0 false, Event.requestAdvice]
      (Store.setInitial (dirname (commonpfx files)) r) env.advice
    refine ⟨⟨t, by rw [hload, ht]⟩, fun hf => absurd hf (by simp), fun hm => ?_,
      fun _ hadv h1 h2 h3 => ?_⟩
    · rw [hload] at hm
      rcases loadRtss_dvh_set_mem env r flag _ _ env.advice hm with hmem | hc
      · simp at hmem
      · exact ⟨rfl, hc⟩
    · rw [hload]
      simp [loadRtss, hadv, h1, h2, h3, Store.set, Store.setInitial, List.lookup]

/-- Witness for C4: both modalities present, the advisory answers no. -/
theorem c4_witness :
    (mkEnv (Except.ok rBothW) true false (Except.ok [])).readResult = Except.ok rBothW ∧
    (rBothW.fnames.lookup "rtss").isSome = true ∧
    (rBothW.fnames.lookup "rtdose").isSome = true ∧
    flagOff 0 = false ∧
    ((∃ post, (load (mkEnv (Except.ok rBothW) true false (Except.ok [])) filesW flagOff
          s0W).trace =
        [Event.progress "Creating datasets..." 0, Event.storeClear, Event.storeInit,
         Event.poll 0 false, Event.requestAdvice] ++ post) ∧
      ((mkEnv (Except.ok rBothW) true false (Except.ok [])).adviceArrives = false →
        (load (mkEnv (Except.ok rBothW) true false (Except.ok [])) filesW flagOff
          s0W).outcome = Outcome.hang) ∧
      (Event.storeSet "raw_dvh" ∈ (load (mkEnv (Except.ok rBothW) true false
            (Except.ok [])) filesW flagOff s0W).trace →
        (mkEnv (Except.ok rBothW) true false (Except.ok [])).adviceArrives = true ∧
        (mkEnv (Except.ok rBothW) true false (Except.ok [])).advice = true) ∧
      ((mkEnv (Except.ok rBothW) true false (Except.ok [])).adviceArrives = true →
        (mkEnv (Except.ok rBothW) true false (Except.ok [])).advice = false →
        flagOff 1 = false → flagOff 2 = false → flagOff 3 = false →
        (load (mkEnv (Except.ok rBothW) true false (Except.ok [])) filesW flagOff
            s0W).outcome = Outcome.ok true ∧
        (load (mkEnv (Except.ok rBothW) true false (Except.ok [])) filesW flagOff
            s0W).store.attrs.lookup "raw_dvh" = none ∧
        (load (mkEnv (Except.ok rBothW) true false (Except.ok [])) filesW flagOff
            s0W).store.attrs.lookup "dvh_x_y" = none ∧
        (load (mkEnv (Except.ok rBothW) true false (Except.ok [])) filesW flagOff
            s0W).store.attrs.lookup "dvh_outdated" = none)) :=
  ⟨rfl, by decide, by decide, rfl,
   c4_advisory_gate (mkEnv (Except.ok rBothW) true false (Except.ok []))
     filesW flagOff s0W rBothW rfl (by decide) (by decide) rfl⟩

/-! ## C9: every load clears and re-initialises the store before publishing -/

/-- C9: whenever the dataset read succeeds, the trace begins with the initial
progress emission followed immediately by the store clear and
re-initialisation, before anything else; and the final store does not depend
on the store's prior contents. -/
theorem c9_clear_and_reinit (env : Env) (files : List Str) (flag : Nat → Bool)
    (s0 : Store) (r : ReadOut) (hr : env.readResult = Except.ok r) :
    (∃ post, (load env files flag s0).trace =
        [Event.progress "Creating datasets..." 0, Event.storeClear,
         Event.storeInit] ++ post) ∧
    ∀ s1 : Store, (load env files flag s1).store = (load env files flag s0).store := by
  constructor
  · cases hf0 : flag 0 with
    | true =>
      exact ⟨[Event.poll 0 true, Event.print "stopped"], by simp [load, hr, hf0]⟩
    | false =>
      cases hrt : (r.fnames.lookup "rtss").isSome with
      | false =>
        have hload : load env files flag s0 =
            loadNoRtss env (dirname (commonpfx files))
              [Event.progress "Creating datasets..." 0, Event.storeClear,
               Event.storeInit, Event.poll 0 false]
              (Store.setInitial (dirname (commonpfx files)) r) := by
          simp [load, hr, hf0, hrt]
        obtain ⟨t, ht⟩ := loadNoRtss_trace_ext env (dirname (commonpfx files))
          [Event.progress "Creating datasets..." 0, Event.storeClear,
           Event.storeInit, Event.poll 0 false]
          (Store.setInitial (dirname (commonpfx files)) r)
        exact ⟨[Event.poll 0 false] ++ t, by rw [hload, ht]; simp⟩
      | true =>
        cases hdz : (r.fnames.lookup "rtdose").isSome with
        | false =>
          have hload : load env files flag s0 =
              loadRtss env r flag
                [Event.progress "Creating datasets..." 0, Event.storeClear,
                 Event.storeInit, Event.poll 0 false]
                (Store.setInitial (dirname (commonpfx files)) r) false := by
            simp [load, hr, hf0, hrt, hdz]
          obtain ⟨t, ht⟩ := loadRtss_trace_ext env r flag
            [Event.progress "Creating datasets..." 0, Event.storeClear,
             Event.storeInit, Event.poll 0 false]
            (Store.setInitial (dirname (commonpfx files)) r) false
          exact ⟨[Event.poll 0 false] ++ t, by rw [hload, ht]; simp⟩
        | true =>
          cases harr : env.adviceArrives with
          | true =>
            have hload : load env files flag s0 =
                loadRtss env r flag
                  [Event.progress "Creating datasets..." 0, Event.storeClear,
                   Event.storeInit, Event.poll 0 false, Event.requestAdvice]
                  (Store.setInitial (dirname (commonpfx files)) r) env.advice := by
              simp [load, hr, hf0, hrt, hdz, harr]
            obtain ⟨t, ht⟩ := loadRtss_trace_ext env r flag
              [Event.progress "Creating datasets..." 0, Event.storeClear,
               Event.storeInit, Event.poll 0 false, Event.requestAdvice]
              (Store.setInitial (dirname (commonpfx files)) r) env.advice
            exact ⟨[Event.poll 0 false, Event.requestAdvice] ++ t,
              by rw [hload, ht]; simp⟩
          | false =>
            exact ⟨[Event.poll 0 false, Event.requestAdvice],
              by simp [load, hr, hf0, hrt, hdz, harr]⟩
  · intro s1
    simp only [load, hr]

/-- Witness for C9. -/
theorem c9_witness :
    (mkEnv (Except.ok rBothW) true true (Except.ok [])).readResult = Except.ok rBothW ∧
    ((∃ post, (load (mkEnv (Except.ok rBothW) true true (Except.ok [])) filesW flagOff
          s0W).trace =
        [Event.progress "Creating datasets..." 0, Event.storeClear,
         Event.storeInit] ++ post) ∧
      ∀ s1 : Store, (load (mkEnv (Except.ok rBothW) true true (Except.ok [])) filesW
          flagOff s1).store =
        (load (mkEnv (Except.ok rBothW) true true (Except.ok [])) filesW flagOff
          s0W).store) :=
  ⟨rfl, c9_clear_and_reinit (mkEnv (Except.ok rBothW) true true (Except.ok []))
    filesW flagOff s0W rBothW rfl⟩

/-! ## C1: a set flag at any poll point yields the `False` sentinel -/

theorem loadRtss_cancel (env : Env) (r : ReadOut) (flag : Nat → Bool)
    (ev : List Event) (s : Store) (c : Bool) (k : Nat)
    (hnot : Event.poll k true ∉ ev)
    (h : Event.poll k true ∈ (loadRtss env r flag ev s c).trace) :
    (loadRtss env r flag ev s c).outcome = Outcome.ok false ∧
    ((loadRtss env r flag ev s c).store.attrs = s.attrs ∨
      (loadRtss env r flag ev s c).store.attrs =
        s.attrs ++ [("rois", StoreVal.rois env.roisTok),
          ("raw_contour", StoreVal.rawContour env.contourTok),
          ("num_points", StoreVal.numPoints env.numptsTok),
          ("pixluts", StoreVal.pixluts env.pixlutsTok)]) := by
  rcases hd : env.dvhResult with _ | rd <;>
    simp only [loadRtss, hd, Store.set] at h ⊢ <;>
    split_ifs at h ⊢ <;> simp_all

/-- C1: if the interrupt flag reads set at any poll point a run reaches, the
run stops there returning the sentinel `False` (no exception) and no DVH
entry (`raw_dvh`, `dvh_x_y`, `dvh_outdated`) is in the patient store. -/
theorem c1_cancelled_sentinel (env : Env) (files : List Str) (flag : Nat → Bool)
    (s0 : Store) (k : Nat)
    (h : Event.poll k true ∈ (load env files flag s0).trace) :
    (load env files flag s0).outcome = Outcome.ok false ∧
    (load env files flag s0).store.attrs.lookup "raw_dvh" = none ∧
    (load env files flag s0).store.attrs.lookup "dvh_x_y" = none ∧
    (load env files flag s0).store.attrs.lookup "dvh_outdated" = none := by
  rcases hr : env.readResult with _ | r
  · simp [load, hr] at h
  · cases hf0 : flag 0 with
    | true => simp [load, hr, hf0, Store.setInitial]
    | false =>
      cases hrt : (r.fnames.lookup "rtss").isSome with
      | false =>
        have hload : load env files flag s0 =
            loadNoRtss env (dirname (commonpfx files))
              [Event.progress "Creating datasets..." 0, Event.storeClear,
               Event.storeInit, Event.poll 0 false]
              (Store.setInitial (dirname (commonpfx files)) r) := by
          simp [load, hr, hf0, hrt]
        rw [hload] at h
        simp [loadNoRtss] at h
      | true =>
        cases hdz : (r.fnames.lookup "rtdose").isSome with
        | false =>
          have hload : load env files flag s0 =
              loadRtss env r flag
                [Event.progress "Creating datasets..." 0, Event.storeClear,
                 Event.storeInit, Event.poll 0 false]
                (Store.setInitial (dirname (commonpfx files)) r) false := by
            simp [load, hr, hf0, hrt, hdz]
          rw [hload] at h ⊢
          have hnot : Event.poll k true ∉
              [Event.progress "Creating datasets..." 0, Event.storeClear,
               Event.storeInit, Event.poll 0 false] := by simp
          obtain ⟨ho, hs'⟩ := loadRtss_cancel env r flag _ _ false k hnot h
          refine ⟨ho, ?_⟩
          rcases hs' with h' | h' <;> rw [h'] <;>
            simp [Store.setInitial, List.lookup]
        | true =>
          cases harr : env.adviceArrives with
          | false =>
            have hload : load env files flag s0 =
                LoadResult.mk Outcome.hang
                  [Event.progress "Creating datasets..." 0, Event.storeClear,
                   Event.storeInit, Event.poll 0 false, Event.requestAdvice]
                  (Store.setInitial (dirname (commonpfx files)) r) := by
              simp [load, hr, hf0, hrt, hdz, harr]
            rw [hload] at h
            simp at h
          | true =>
            have hload : load env files flag s0 =
                loadRtss env r flag
                  [Event.progress "Creating datasets..." 0, Event.storeClear,
                   Event.storeInit, Event.poll 0 false, Event.requestAdvice]
                  (Store.setInitial (dirname (commonpfx files)) r) env.advice := by
              simp [load, hr, hf0, hrt, hdz, harr]
            rw [hload] at h ⊢
            have hnot : Event.poll k true ∉
                [Event.progress "Creating datasets..." 0, Event.storeClear,
                 Event.storeInit, Event.poll 0 false, Event.requestAdvice] := by simp
            obtain ⟨ho, hs'⟩ := loadRtss_cancel env r flag _ _ env.advice k hnot h
            refine ⟨ho, ?_⟩
            rcases hs' with h' | h' <;> rw [h'] <;>
              simp [Store.setInitial, List.lookup]

/-- Witness for C1: the flag set from the start; the first poll cancels. -/
theorem c1_witness :
    Event.poll 0 true ∈ (load (mkEnv (Except.ok rBothW) true true (Except.ok []))
        filesW (fun _ => true) s0W).trace ∧
    ((load (mkEnv (Except.ok rBothW) true true (Except.ok [])) filesW (fun _ => true)
          s0W).outcome = Outcome.ok false ∧
      (load (mkEnv (Except.ok rBothW) true true (Except.ok [])) filesW (fun _ => true)
          s0W).store.attrs.lookup "raw_dvh" = none ∧
      (load (mkEnv (Except.ok rBothW) true true (Except.ok [])) filesW (fun _ => true)
          s0W).store.attrs.lookup "dvh_x_y" = none ∧
      (load (mkEnv (Except.ok rBothW) true true (Except.ok [])) filesW (fun _ => true)
          s0W).store.attrs.lookup "dvh_outdated" = none) :=
  ⟨by decide, c1_cancelled_sentinel (mkEnv (Except.ok rBothW) true true (Except.ok []))
    filesW (fun _ => true) s0W 0 (by decide)⟩
